import Mathlib

set_option maxRecDepth 20000

/-!
Verification of the browser-side UI layer of the Grocery Store Management
System (two modules: the dashboard / order composer in the main dashboard
script, and the product catalog manager in `static/manage-products.js`).

Modelling conventions, used consistently below:
* Monetary amounts are represented as integer paise (hundredths of a rupee).
  Catalog prices pass through a live input filter that admits at most two
  decimal digits, and quantities are integers, so every amount the code
  displays is an exact multiple of a paisa; `Intl.NumberFormat("en-IN", ...)`
  with two fraction digits then renders it without rounding.
* `parseFloat` / `parseInt` results are modelled as `Option` values: `none`
  stands for `NaN` (empty or unparsable input), `some v` for a parsed number.
* jQuery/DOM state (a row's select value, quantity value, `max` attribute,
  `disabled` flag, the text of the subtotal `div`) is carried in explicit
  record fields; toast notifications are accumulated in lists of strings.
-/

/-- Characters matched by the JavaScript regex class `\s` (and removed by
`String.prototype.trim`). -/
def jsWhitespace (c : Char) : Bool :=
  c == ' ' || c == '\t' || c == '\n' || c == '\r' || c == '\x0b' || c == '\x0c' ||
  c == '\u00A0' || c == '\u1680' || (0x2000 ≤ c.toNat && c.toNat ≤ 0x200A) ||
  c == '\u2028' || c == '\u2029' || c == '\u202F' || c == '\u205F' ||
  c == '\u3000' || c == '\uFEFF'

/-- JavaScript `String.prototype.trim`: drop leading and trailing whitespace. -/
def jsTrim (s : String) : String :=
  String.mk (((s.toList.dropWhile jsWhitespace).reverse.dropWhile jsWhitespace).reverse)

/-- Decimal digit value to character. -/
def digitChar : ℕ → Char
  | 0 => '0' | 1 => '1' | 2 => '2' | 3 => '3' | 4 => '4'
  | 5 => '5' | 6 => '6' | 7 => '7' | 8 => '8' | _ => '9'

/-- Character back to decimal digit value (`none` on a non-digit). -/
def charDigit (c : Char) : Option ℕ :=
  if c == '0' then some 0 else if c == '1' then some 1 else
  if c == '2' then some 2 else if c == '3' then some 3 else
  if c == '4' then some 4 else if c == '5' then some 5 else
  if c == '6' then some 6 else if c == '7' then some 7 else
  if c == '8' then some 8 else if c == '9' then some 9 else none

/-- Fuel-driven base-10 digit extraction (least significant first). The fuel
makes the recursion structural, so the kernel can evaluate it on concrete
numbers; with fuel at least `n` it agrees with `Nat.digits 10 n`. -/
def digitsFuel : ℕ → ℕ → List ℕ
  | _, 0 => []
  | 0, _ + 1 => []
  | fuel + 1, n + 1 => ((n + 1) % 10) :: digitsFuel fuel ((n + 1) / 10)

/-- Decimal digits of `n`, least significant first; `[0]` for `n = 0`
(a number always renders at least one digit). -/
def natDigitsLSB (n : ℕ) : List ℕ :=
  if n = 0 then [0] else digitsFuel n n

/-- Groups of two digits (least-significant-first list), separated by commas:
the part of the en-IN digit grouping above the last three digits. -/
def group2 : List Char → List Char
  | [] => []
  | [c] => [c]
  | [c₁, c₂] => [c₁, c₂]
  | c₁ :: c₂ :: c₃ :: rest => c₁ :: c₂ :: ',' :: group2 (c₃ :: rest)

/-- en-IN digit grouping (least-significant-first list): last three digits,
then groups of two. `123456 ↦ "1,23,456"` once reversed into display order. -/
def groupIN : List Char → List Char
  | [] => []
  | [c] => [c]
  | [c₁, c₂] => [c₁, c₂]
  | [c₁, c₂, c₃] => [c₁, c₂, c₃]
  | c₁ :: c₂ :: c₃ :: c₄ :: rest => c₁ :: c₂ :: c₃ :: ',' :: group2 (c₄ :: rest)

/-- Character list of `formatCurrency` (below) for a non-negative amount of
`paise`: grouped integer rupee part, `'.'`, two fraction digits. -/
def formatNatChars (paise : ℕ) : List Char :=
  (groupIN ((natDigitsLSB (paise / 100)).map digitChar)).reverse ++
    '.' :: [digitChar (paise % 100 / 10), digitChar (paise % 100 % 10)]

/-- Character list of `formatCurrency` for a signed amount of paise. -/
def formatCurrencyChars (paise : ℤ) : List Char :=
  (if paise < 0 then ['-'] else []) ++ '₹' :: formatNatChars paise.natAbs

/-- The `formatCurrency` utility (both modules):
`Intl.NumberFormat("en-IN", {style: "currency", currency: "INR",
minimumFractionDigits: 2})` — rupee sign, en-IN digit grouping, exactly two
fraction digits (amounts are whole paise, so no rounding occurs). -/
def formatCurrency (paise : ℤ) : String :=
  String.mk (formatCurrencyChars paise)

/-- Characters surviving `.replace(/[₹,]/g, "")` in `updateOrderTotal`. -/
def stripKeep (c : Char) : Bool :=
  !(c == '₹' || c == ',')

/-- Strict digit-string parse, `none` as soon as one character is not a digit. -/
def parseDigitsList : List Char → Option (List ℕ)
  | [] => some []
  | c :: cs =>
    match charDigit c, parseDigitsList cs with
    | some d, some ds => some (d :: ds)
    | _, _ => none

/-- Parse the unsigned part `digits '.' d d` of a stripped currency string
into paise. The shapes accepted are exactly those `formatCurrency` emits
(on which `parseFloat` agrees with this parse). -/
def parseMoneyAux (neg : Bool) (cs : List Char) : Option ℤ :=
  let ip := cs.takeWhile (fun c => !(c == '.'))
  let fp := cs.dropWhile (fun c => !(c == '.'))
  match parseDigitsList ip, fp with
  | some ds, ['.', f₁, f₂] =>
    match charDigit f₁, charDigit f₂ with
    | some a, some b =>
      if ip.isEmpty then none
      else
        let paise : ℤ := (Nat.ofDigits 10 ds.reverse : ℕ) * 100 + (a * 10 + b : ℕ)
        some (if neg then -paise else paise)
    | _, _ => none
  | _, _ => none

/-- The read-back in `updateOrderTotal`:
`parseFloat(subtotalText.replace(/[₹,]/g, ""))`, in paise; `none` models
`NaN`. Only the string shapes `formatCurrency` produces are given a value. -/
def parseMoney (s : String) : Option ℤ :=
  if (s.toList.filter stripKeep).head? == some '-' then
    parseMoneyAux true (s.toList.filter stripKeep).tail
  else parseMoneyAux false (s.toList.filter stripKeep)

theorem charDigit_digitChar {d : ℕ} (hd : d < 10) : charDigit (digitChar d) = some d := by
  interval_cases d <;> rfl

theorem digitChar_props {d : ℕ} (hd : d < 10) :
    stripKeep (digitChar d) = true ∧ (digitChar d == '.') = false ∧
      (digitChar d == '-') = false := by
  interval_cases d <;> exact ⟨rfl, rfl, rfl⟩

theorem digitsFuel_eq : ∀ fuel n : ℕ, n ≤ fuel → digitsFuel fuel n = Nat.digits 10 n := by
  intro fuel
  induction fuel with
  | zero =>
    intro n hn
    interval_cases n
    simp [digitsFuel]
  | succ f ih =>
    intro n hn
    cases n with
    | zero => simp [digitsFuel]
    | succ m =>
      rw [digitsFuel, ih ((m + 1) / 10) (by omega),
        Nat.digits_def' (by norm_num : 1 < 10) (Nat.succ_pos m)]

theorem natDigitsLSB_eq (n : ℕ) :
    natDigitsLSB n = if n = 0 then [0] else Nat.digits 10 n := by
  unfold natDigitsLSB
  split
  · rfl
  · rw [digitsFuel_eq n n le_rfl]

theorem mem_natDigitsLSB_lt {n d : ℕ} (hd : d ∈ natDigitsLSB n) : d < 10 := by
  rw [natDigitsLSB_eq] at hd
  split at hd
  · simp at hd
    omega
  · exact Nat.digits_lt_base (by norm_num) hd

theorem natDigitsLSB_ne_nil (n : ℕ) : natDigitsLSB n ≠ [] := by
  rw [natDigitsLSB_eq]
  split
  · simp
  · exact Nat.digits_ne_nil_iff_ne_zero.mpr (by assumption)

theorem ofDigits_natDigitsLSB (n : ℕ) : Nat.ofDigits 10 (natDigitsLSB n) = n := by
  rw [natDigitsLSB_eq]
  split
  · simp [Nat.ofDigits]
    omega
  · exact Nat.ofDigits_digits 10 n

theorem group2_filter : ∀ cs : List Char, (∀ c ∈ cs, stripKeep c = true) →
    List.filter stripKeep (group2 cs) = cs
  | [], _ => rfl
  | [c], h => by simp [group2, List.filter, h c (by simp)]
  | [c₁, c₂], h => by
    simp [group2, List.filter, h c₁ (by simp), h c₂ (by simp)]
  | c₁ :: c₂ :: c₃ :: rest, h => by
    have ih := group2_filter (c₃ :: rest) (fun c hc => h c (by simp at hc ⊢; tauto))
    simp only [group2, List.filter, h c₁ (by simp), h c₂ (by simp)]
    simp only [show stripKeep ',' = false from rfl]
    simp_all [List.filter]

theorem groupIN_filter : ∀ cs : List Char, (∀ c ∈ cs, stripKeep c = true) →
    List.filter stripKeep (groupIN cs) = cs
  | [], _ => rfl
  | [c], h => by simp [groupIN, List.filter, h c (by simp)]
  | [c₁, c₂], h => by
    simp [groupIN, List.filter, h c₁ (by simp), h c₂ (by simp)]
  | [c₁, c₂, c₃], h => by
    simp [groupIN, List.filter, h c₁ (by simp), h c₂ (by simp), h c₃ (by simp)]
  | c₁ :: c₂ :: c₃ :: c₄ :: rest, h => by
    have ih := group2_filter (c₄ :: rest) (fun c hc => h c (by simp at hc ⊢; tauto))
    simp only [groupIN, List.filter, h c₁ (by simp), h c₂ (by simp), h c₃ (by simp)]
    simp only [show stripKeep ',' = false from rfl]
    simp_all [List.filter]

theorem parseDigitsList_map_digitChar : ∀ ds : List ℕ, (∀ d ∈ ds, d < 10) →
    parseDigitsList (ds.map digitChar) = some ds
  | [], _ => rfl
  | d :: ds, h => by
    have ih := parseDigitsList_map_digitChar ds (fun x hx => h x (by simp [hx]))
    simp only [List.map, parseDigitsList, charDigit_digitChar (h d (by simp)), ih]

theorem takeWhile_append_dot (l₁ l₂ : List Char)
    (h : ∀ c ∈ l₁, (c == '.') = false) :
    (l₁ ++ '.' :: l₂).takeWhile (fun c => !(c == '.')) = l₁ ∧
      (l₁ ++ '.' :: l₂).dropWhile (fun c => !(c == '.')) = '.' :: l₂ := by
  induction l₁ with
  | nil => simp [List.takeWhile, List.dropWhile]
  | cons c cs ih =>
    have hc := h c (by simp)
    have ih' := ih (fun x hx => h x (by simp [hx]))
    simp [List.takeWhile, List.dropWhile, hc, ih'.1, ih'.2]

/-- The auxiliary parse applied to exactly the character shape the formatter
emits for an absolute amount `n` of paise. -/
theorem parseMoneyAux_format (neg : Bool) (n : ℕ) :
    parseMoneyAux neg (((natDigitsLSB (n / 100)).map digitChar).reverse ++
        '.' :: [digitChar (n % 100 / 10), digitChar (n % 100 % 10)]) =
      some (if neg then -(n : ℤ) else (n : ℤ)) := by
  have hfrac1 : n % 100 / 10 < 10 := by omega
  have hfrac2 : n % 100 % 10 < 10 := by omega
  have hdot : ∀ c ∈ ((natDigitsLSB (n / 100)).map digitChar).reverse, (c == '.') = false := by
    intro c hc
    simp only [List.mem_reverse, List.mem_map] at hc
    obtain ⟨d, hd, rfl⟩ := hc
    exact (digitChar_props (mem_natDigitsLSB_lt hd)).2.1
  have htake := takeWhile_append_dot _ [digitChar (n % 100 / 10), digitChar (n % 100 % 10)] hdot
  have hpd : parseDigitsList ((natDigitsLSB (n / 100)).map digitChar).reverse =
      some (natDigitsLSB (n / 100)).reverse := by
    rw [← List.map_reverse]
    exact parseDigitsList_map_digitChar _
      (fun d hd => mem_natDigitsLSB_lt (List.mem_reverse.mp hd))
  have hne : (((natDigitsLSB (n / 100)).map digitChar).reverse).isEmpty = false := by
    simp [List.isEmpty_iff]
    exact natDigitsLSB_ne_nil _
  have hof : Nat.ofDigits 10 ((natDigitsLSB (n / 100)).reverse).reverse = n / 100 := by
    rw [List.reverse_reverse]
    exact ofDigits_natDigitsLSB _
  unfold parseMoneyAux
  simp only [htake.1, htake.2, hpd, charDigit_digitChar hfrac1, charDigit_digitChar hfrac2,
    hne, hof]
  have harith : ((n / 100 : ℕ) : ℤ) * 100 + ((n % 100 / 10 * 10 + n % 100 % 10 : ℕ) : ℤ) =
      (n : ℤ) := by
    push_cast
    omega
  rw [harith]
  simp

/-- Round trip: reading back a `formatCurrency` rendering through
`updateOrderTotal`'s strip-and-parse recovers the amount exactly. -/
theorem parseMoney_formatCurrency (z : ℤ) : parseMoney (formatCurrency z) = some z := by
  have hdigs : ∀ c ∈ (natDigitsLSB (z.natAbs / 100)).map digitChar, stripKeep c = true := by
    intro c hc
    simp only [List.mem_map] at hc
    obtain ⟨d, hd, rfl⟩ := hc
    exact (digitChar_props (mem_natDigitsLSB_lt hd)).1
  have hgrp := groupIN_filter ((natDigitsLSB (z.natAbs / 100)).map digitChar) hdigs
  have hfrac1 : z.natAbs % 100 / 10 < 10 := by omega
  have hfrac2 : z.natAbs % 100 % 10 < 10 := by omega
  have hstrip : (formatCurrency z).toList.filter stripKeep =
      (if z < 0 then ['-'] else []) ++
        ((natDigitsLSB (z.natAbs / 100)).map digitChar).reverse ++
        '.' :: [digitChar (z.natAbs % 100 / 10), digitChar (z.natAbs % 100 % 10)] := by
    show (formatCurrencyChars z).filter stripKeep = _
    unfold formatCurrencyChars formatNatChars
    have h1 := (digitChar_props hfrac1).1
    have h2 := (digitChar_props hfrac2).1
    split <;>
      simp [List.filter_append, List.filter_cons, List.filter_reverse, hgrp, h1, h2,
        show stripKeep '₹' = false from rfl, show stripKeep '.' = true from rfl,
        show stripKeep '-' = true from rfl]
  obtain ⟨c, cs, hcons⟩ :=
    List.exists_cons_of_ne_nil
      (show ((natDigitsLSB (z.natAbs / 100)).map digitChar).reverse ≠ [] by
        simp
        exact natDigitsLSB_ne_nil _)
  have hcdig : (c == '-') = false := by
    have hmem : c ∈ ((natDigitsLSB (z.natAbs / 100)).map digitChar).reverse := by
      rw [hcons]; simp
    simp only [List.mem_reverse, List.mem_map] at hmem
    obtain ⟨d, hd, rfl⟩ := hmem
    exact (digitChar_props (mem_natDigitsLSB_lt hd)).2.2
  by_cases hz : z < 0
  · rw [if_pos hz] at hstrip
    have hstrip' : (formatCurrency z).toList.filter stripKeep =
        '-' :: (((natDigitsLSB (z.natAbs / 100)).map digitChar).reverse ++
          '.' :: [digitChar (z.natAbs % 100 / 10), digitChar (z.natAbs % 100 % 10)]) := by
      rw [hstrip]; simp
    unfold parseMoney
    rw [hstrip']
    simp only [List.head?_cons, List.tail_cons, beq_self_eq_true, if_true]
    rw [parseMoneyAux_format]
    simp only [Option.some.injEq]
    simp only [if_pos trivial]
    omega
  · rw [if_neg hz] at hstrip
    rw [List.nil_append] at hstrip
    unfold parseMoney
    rw [hstrip, hcons, List.cons_append, List.head?_cons]
    have hb : ((some c == some '-')) = false := by
      have : (some c == some '-') = (c == '-') := rfl
      rw [this, hcdig]
    rw [hb]
    simp only [Bool.false_eq_true, if_false]
    rw [← List.cons_append, ← hcons, parseMoneyAux_format]
    simp only [Bool.false_eq_true, if_false, Option.some.injEq]
    omega

/-!
Data model shared by both modules. A `Product` is the server-owned record
`{id, name, unit, price, stock}`; the price is held in paise.
-/

structure Product where
  id : ℤ
  name : String
  unit : String
  price : ℤ
  stock : ℤ
deriving DecidableEq, Repr

/-!
Order Composer (main dashboard script, `class GroceryStore`).

An `OrderRow` is the DOM state of one `.product-row`: the value of its
`.product-select` (`""` when the placeholder is selected), the selected
option's `data-price` (the price used by `calculateRowSubtotal`; `none` when
no option with a price is selected, in which case `parseFloat` yields `NaN`
and `|| 0` substitutes `0`), the parsed value of its `.quantity-input`
(`none` models `NaN`, i.e. an empty or unparsable input), the input's `max`
attribute (`none` when removed), the input's `disabled` property, and the
text content of the `.product-subtotal` div.
-/

structure OrderRow where
  selectVal : String
  priceData : Option ℤ
  qtyVal : Option ℤ
  maxAttr : Option ℤ
  qtyDisabled : Bool
  subtotalText : String
deriving DecidableEq, Repr

/-- The composer-relevant state of the `GroceryStore` singleton:
`this.allProducts`, the list of `.product-row` elements, `this.orderTotal`,
and the toasts shown so far. -/
structure GroceryStore where
  allProducts : List Product
  rows : List OrderRow
  orderTotal : ℤ
  toasts : List String
deriving DecidableEq, Repr

/-- `price * quantity` as computed by `calculateRowSubtotal`:
`parseFloat(selectedOption.data("price")) || 0` times
`parseInt($quantityInput.val()) || 0`. -/
def rowSubtotal (r : OrderRow) : ℤ :=
  r.priceData.getD 0 * r.qtyVal.getD 0

/-- `calculateRowSubtotal($row)` (without the trailing `updateOrderTotal`
call, which the state-level operations perform): writes
`formatCurrency(price * quantity)` into the row's subtotal div. -/
def calculateRowSubtotal (r : OrderRow) : OrderRow :=
  { r with subtotalText := formatCurrency (rowSubtotal r) }

/-- `updateOrderTotal()`: re-reads every row's rendered subtotal text,
strips `₹` and commas, parses it back to a number (`|| 0` on `NaN`) and sums. -/
def updateOrderTotal (rows : List OrderRow) : ℤ :=
  (rows.map (fun r => (parseMoney r.subtotalText).getD 0)).sum

/-- The row markup appended by `addProductRow`: placeholder selected, empty
enabled quantity input with no `max` attribute, subtotal div text `₹0.00`. -/
def freshRow : OrderRow :=
  { selectVal := "", priceData := none, qtyVal := none, maxAttr := none,
    qtyDisabled := false, subtotalText := "₹0.00" }

/-- `addProductRow()`: refuses with a toast when `allProducts` is empty;
otherwise appends a fresh row and recomputes the total. -/
def addProductRow (s : GroceryStore) : GroceryStore :=
  if s.allProducts = [] then
    { s with toasts := s.toasts ++ ["No products available. Please add products first."] }
  else
    { s with rows := s.rows ++ [freshRow],
             orderTotal := updateOrderTotal (s.rows ++ [freshRow]) }

/-- `removeProductRow(e)`: removes the clicked row, recomputes the total,
then calls `addProductRow` when no row is left. -/
def removeProductRow (s : GroceryStore) (i : ℕ) : GroceryStore :=
  if s.rows.eraseIdx i = [] then
    addProductRow { s with rows := s.rows.eraseIdx i,
                           orderTotal := updateOrderTotal (s.rows.eraseIdx i) }
  else
    { s with rows := s.rows.eraseIdx i,
             orderTotal := updateOrderTotal (s.rows.eraseIdx i) }

/-- `addFirstProductRow()`: adds a row only when none exists yet. -/
def addFirstProductRow (s : GroceryStore) : GroceryStore :=
  if s.rows = [] then addProductRow s else s

/-- The composer state right after `init()` ran `addFirstProductRow` with the
product list `ps` (`this.allProducts = []` until the fetch resolves, so `ps`
is `[]` at real page load; the theorems quantify over both situations). -/
def initialState (ps : List Product) : GroceryStore :=
  addFirstProductRow { allProducts := ps, rows := [], orderTotal := 0, toasts := [] }

/-- Row-level part of `handleProductChange(e)`: re-derives `max`,
enables/disables-and-clears the quantity input, and re-renders the subtotal.
Returns the new row and the toast, if one is shown. -/
def handleProductChangeRow (r : OrderRow) (sel : Option Product) :
    OrderRow × Option String :=
  match sel with
  | some p =>
    if p.stock = 0 then
      (calculateRowSubtotal
        { r with selectVal := p.name, priceData := some p.price,
                 maxAttr := some p.stock, qtyVal := none, qtyDisabled := true },
       some "Selected product is out of stock")
    else
      (calculateRowSubtotal
        { r with selectVal := p.name, priceData := some p.price,
                 maxAttr := some p.stock, qtyDisabled := false },
       none)
  | none =>
    (calculateRowSubtotal
      { r with selectVal := "", priceData := none, qtyVal := none,
               qtyDisabled := true, maxAttr := none },
     none)

/-- Row-level part of `handleQuantityChange(e)`: the input already holds the
entered value; `parseInt($input.attr("max"))` is `NaN` when no `max` is set,
and `quantity > NaN` as well as `NaN > maxStock` are false, so clamping
happens only when both parse. -/
def handleQuantityChangeRow (r : OrderRow) (entered : Option ℤ) :
    OrderRow × Option String :=
  match entered, r.maxAttr with
  | some q, some m =>
    if q > m then
      (calculateRowSubtotal { r with qtyVal := some m },
       some ("Maximum available quantity is " ++ toString m))
    else
      (calculateRowSubtotal { r with qtyVal := some q }, none)
  | _, _ => (calculateRowSubtotal { r with qtyVal := entered }, none)

/-- `handleProductChange(e)` at state level: the change event originates from
row `i`; afterwards `calculateRowSubtotal` has called `updateOrderTotal`. -/
def handleProductChange (s : GroceryStore) (i : ℕ) (sel : Option Product) :
    GroceryStore :=
  match s.rows[i]? with
  | none => s
  | some r =>
    let res := handleProductChangeRow r sel
    { s with rows := s.rows.set i res.1,
             orderTotal := updateOrderTotal (s.rows.set i res.1),
             toasts := s.toasts ++ res.2.toList }

/-- `handleQuantityChange(e)` at state level. -/
def handleQuantityChange (s : GroceryStore) (i : ℕ) (entered : Option ℤ) :
    GroceryStore :=
  match s.rows[i]? with
  | none => s
  | some r =>
    let res := handleQuantityChangeRow r entered
    { s with rows := s.rows.set i res.1,
             orderTotal := updateOrderTotal (s.rows.set i res.1),
             toasts := s.toasts ++ res.2.toList }

/-- The user-interface events that add, remove, or edit composer rows. -/
inductive ComposerOp where
  | addRow : ComposerOp
  | removeRow : ℕ → ComposerOp
  | selectProduct : ℕ → Option Product → ComposerOp
  | inputQuantity : ℕ → Option ℤ → ComposerOp
deriving DecidableEq, Repr

/-- Dispatch one event to its handler. -/
def applyOp (s : GroceryStore) : ComposerOp → GroceryStore
  | .addRow => addProductRow s
  | .removeRow i => removeProductRow s i
  | .selectProduct i sel => handleProductChange s i sel
  | .inputQuantity i q => handleQuantityChange s i q

/-- Apply a sequence of row events in order. -/
def applyOps (s : GroceryStore) (ops : List ComposerOp) : GroceryStore :=
  ops.foldl applyOp s

/-!
Consistency invariant of the composer: every rendered subtotal text is the
`formatCurrency` rendering of that row's `price * quantity`, and the stored
`orderTotal` is what `updateOrderTotal` computes from the rendered texts.
-/

def RowsConsistent (rows : List OrderRow) : Prop :=
  ∀ r ∈ rows, r.subtotalText = formatCurrency (rowSubtotal r)

def Consistent (s : GroceryStore) : Prop :=
  RowsConsistent s.rows ∧ s.orderTotal = updateOrderTotal s.rows

theorem updateOrderTotal_eq_sum {rows : List OrderRow} (h : RowsConsistent rows) :
    updateOrderTotal rows = (rows.map rowSubtotal).sum := by
  induction rows with
  | nil => rfl
  | cons r rs ih =>
    have hr := h r (by simp)
    have ih' := ih (fun x hx => h x (by simp [hx]))
    simp only [updateOrderTotal, List.map_cons, List.sum_cons] at ih' ⊢
    rw [hr, parseMoney_formatCurrency, ih']
    rfl

theorem freshRow_consistent : freshRow.subtotalText = formatCurrency (rowSubtotal freshRow) := by
  decide

theorem calculateRowSubtotal_consistent (r : OrderRow) :
    (calculateRowSubtotal r).subtotalText = formatCurrency (rowSubtotal (calculateRowSubtotal r)) :=
  rfl

theorem rowsConsistent_append_fresh {rows : List OrderRow} (h : RowsConsistent rows) :
    RowsConsistent (rows ++ [freshRow]) := by
  intro r hr
  rcases List.mem_append.mp hr with h' | h'
  · exact h r h'
  · simp at h'
    subst h'
    exact freshRow_consistent

theorem rowsConsistent_eraseIdx {rows : List OrderRow} (h : RowsConsistent rows) (i : ℕ) :
    RowsConsistent (rows.eraseIdx i) := by
  intro r hr
  exact h r (List.eraseIdx_subset rows i hr)

theorem rowsConsistent_set {rows : List OrderRow} (h : RowsConsistent rows)
    {r' : OrderRow} (hr' : r'.subtotalText = formatCurrency (rowSubtotal r')) (i : ℕ) :
    RowsConsistent (rows.set i r') := by
  intro r hr
  rcases List.mem_or_eq_of_mem_set hr with h' | h'
  · exact h r h'
  · subst h'
    exact hr'

theorem addProductRow_consistent {s : GroceryStore} (h : Consistent s) :
    Consistent (addProductRow s) := by
  unfold addProductRow
  split
  · exact h
  · exact ⟨rowsConsistent_append_fresh h.1, rfl⟩

theorem removeProductRow_consistent {s : GroceryStore} (h : Consistent s) (i : ℕ) :
    Consistent (removeProductRow s i) := by
  unfold removeProductRow
  split
  · exact addProductRow_consistent ⟨rowsConsistent_eraseIdx h.1 i, rfl⟩
  · exact ⟨rowsConsistent_eraseIdx h.1 i, rfl⟩

theorem handleProductChangeRow_consistent (r : OrderRow) (sel : Option Product) :
    (handleProductChangeRow r sel).1.subtotalText =
      formatCurrency (rowSubtotal (handleProductChangeRow r sel).1) := by
  unfold handleProductChangeRow
  rcases sel with _ | p
  · rfl
  · dsimp only
    split <;> rfl

theorem handleQuantityChangeRow_consistent (r : OrderRow) (entered : Option ℤ) :
    (handleQuantityChangeRow r entered).1.subtotalText =
      formatCurrency (rowSubtotal (handleQuantityChangeRow r entered).1) := by
  unfold handleQuantityChangeRow
  rcases entered with _ | q <;> rcases hm : r.maxAttr with _ | m <;> dsimp only
  · rfl
  · rfl
  · rfl
  · split <;> rfl

theorem handleProductChange_consistent {s : GroceryStore} (h : Consistent s) (i : ℕ)
    (sel : Option Product) : Consistent (handleProductChange s i sel) := by
  unfold handleProductChange
  rcases hr : s.rows[i]? with _ | r
  · exact h
  · exact ⟨rowsConsistent_set h.1 (handleProductChangeRow_consistent r sel) i, rfl⟩

theorem handleQuantityChange_consistent {s : GroceryStore} (h : Consistent s) (i : ℕ)
    (entered : Option ℤ) : Consistent (handleQuantityChange s i entered) := by
  unfold handleQuantityChange
  rcases hr : s.rows[i]? with _ | r
  · exact h
  · exact ⟨rowsConsistent_set h.1 (handleQuantityChangeRow_consistent r entered) i, rfl⟩

theorem applyOp_consistent {s : GroceryStore} (h : Consistent s) (op : ComposerOp) :
    Consistent (applyOp s op) := by
  cases op with
  | addRow => exact addProductRow_consistent h
  | removeRow i => exact removeProductRow_consistent h i
  | selectProduct i sel => exact handleProductChange_consistent h i sel
  | inputQuantity i q => exact handleQuantityChange_consistent h i q

theorem applyOps_consistent {s : GroceryStore} (h : Consistent s) :
    ∀ ops : List ComposerOp, Consistent (applyOps s ops) := by
  intro ops
  induction ops generalizing s with
  | nil => exact h
  | cons op ops ih => exact ih (applyOp_consistent h op)

theorem initialState_consistent (ps : List Product) : Consistent (initialState ps) := by
  unfold initialState addFirstProductRow
  split
  · exact addProductRow_consistent ⟨(by intro r hr; cases hr), rfl⟩
  · exact ⟨(by intro r hr; cases hr), rfl⟩

/-!
Escaping and markup builders. `escapeHtml` assigns the text to a detached
div's `textContent` and reads back `innerHTML`, which escapes exactly `&`,
`<` and `>`.
-/

def escapeChar (c : Char) : String :=
  if c == '&' then "&amp;" else
  if c == '<' then "&lt;" else
  if c == '>' then "&gt;" else String.mk [c]

/-- The `escapeHtml` utility shared by both modules. -/
def escapeHtml (text : String) : String :=
  String.join (text.toList.map escapeChar)

/-- Executable substring search helper: does the first list occur at the
start of the second? -/
def leadsWith : List Char → List Char → Bool
  | [], _ => true
  | _ :: _, [] => false
  | a :: as, b :: bs => a == b && leadsWith as bs

/-- Executable substring search helper: does the first list occur anywhere
inside the second? -/
def containsSeg : List Char → List Char → Bool
  | needle, [] => leadsWith needle []
  | needle, c :: t => leadsWith needle (c :: t) || containsSeg needle t

/-- `strContains hay needle`: `needle` occurs inside `hay`. -/
def strContains (hay needle : String) : Bool :=
  containsSeg needle.toList hay.toList

/-- JavaScript number-to-string rendering of a price held in paise (used for
the raw `${product.price}` interpolations): minimal decimal digits. -/
def rupeeText (paise : ℤ) : String :=
  (if paise < 0 then "-" else "") ++
  (if paise.natAbs % 100 = 0 then toString (paise.natAbs / 100)
   else if paise.natAbs % 10 = 0 then
     toString (paise.natAbs / 100) ++ "." ++ String.mk [digitChar (paise.natAbs % 100 / 10)]
   else
     toString (paise.natAbs / 100) ++ "." ++
       String.mk [digitChar (paise.natAbs % 100 / 10), digitChar (paise.natAbs % 100 % 10)])

/-!
Product Catalog Manager (`static/manage-products.js`, `class ProductManager`).
Markup is modelled as the string the code assembles (template whitespace
compressed); the interpolation structure — which fields pass through
`escapeHtml` and which are inserted raw — is kept exactly as in the source.
-/

/-- The spinner markup `showRowLoading` writes into a row's button group. -/
def spinnerHtml : String :=
  "<i class=\"fas fa-spinner fa-spin\"></i>"

/-- The edit/delete button group of a catalog row. -/
def actionButtonsHtml (productId : ℤ) : String :=
  "<button class=\"btn btn-sm btn-info\" onclick=\"productManager.editProduct(" ++
    toString productId ++ ")\" title=\"Edit Product\"><i class=\"fas fa-edit\"></i></button>" ++
  "<button class=\"btn btn-sm btn-danger\" onclick=\"productManager.confirmDeleteProduct(" ++
    toString productId ++ ")\" title=\"Delete Product\"><i class=\"fas fa-trash\"></i></button>"

/-- One `<tr>` of the catalog table in `displayProducts`: the name goes
through `escapeHtml`, the unit is interpolated raw, price through
`formatCurrency`, stock-based severity classes as in the source. -/
def productRowHtml (product : Product) : String :=
  let stockCls := if product.stock ≤ 10 then "text-danger"
                  else if product.stock ≤ 20 then "text-warning" else "text-success"
  let stockIcon := if product.stock ≤ 10 then "fas fa-exclamation-triangle"
                   else if product.stock ≤ 20 then "fas fa-exclamation-circle"
                   else "fas fa-check-circle"
  "<tr data-product-id=\"" ++ toString product.id ++ "\"><td><strong>" ++
    escapeHtml product.name ++ "</strong></td><td><span class=\"label label-default\">" ++
    product.unit ++ "</span></td><td><strong>" ++ formatCurrency product.price ++
    "</strong></td><td class=\"" ++ stockCls ++ "\"><i class=\"" ++ stockIcon ++
    "\"></i> " ++ toString product.stock ++
    " units</td><td><div class=\"btn-group\" role=\"group\">" ++
    actionButtonsHtml product.id ++ "</div></td></tr>"

/-- The empty-state row `displayProducts` renders for a missing/empty list. -/
def emptyStateHtml : String :=
  "<tr><td colspan=\"5\" class=\"text-center text-muted\">" ++
    "<i class=\"fas fa-box-open\"></i><br>No products found. Add your first product!</td></tr>"

/-- The catalog-relevant state of the `ProductManager` singleton. -/
structure ProductManager where
  products : List Product
  productToDelete : Option ℤ
deriving DecidableEq, Repr

/-- `displayProducts()`. The function declares no parameter and always
renders `this.products`; the call `this.displayProducts([])` in the
`fetchProducts` catch branch therefore discards its `[]` argument. -/
def displayProducts (m : ProductManager) : String :=
  if m.products.isEmpty then emptyStateHtml
  else String.join (m.products.map productRowHtml)

/-- Observable outcome of one `fetchProducts()` run. -/
structure FetchView where
  tableHtml : String
  toasts : List String
  loadingCleared : Bool
deriving DecidableEq, Repr

/-- `fetchProducts()`: `response = some ps` models a 2xx response with body
`ps`; `none` models a non-success status or transport failure (the thrown
error). The `finally` block always clears the table-loading indicator. -/
def fetchProducts (m : ProductManager) (response : Option (List Product)) :
    ProductManager × FetchView :=
  match response with
  | some ps =>
    ({ m with products := ps },
     { tableHtml := displayProducts { m with products := ps },
       toasts := [], loadingCleared := true })
  | none =>
    (m,
     { tableHtml := displayProducts m,
       toasts := ["Failed to load products"], loadingCleared := true })

/-- Observable outcome of `confirmDeleteProduct(productId)`. -/
structure ConfirmView where
  modalShown : Bool
  modalText : Option String
  toasts : List String
deriving DecidableEq, Repr

/-- `confirmDeleteProduct(productId)`: looks the id up in the local list;
unknown ids get a toast and no dialog; otherwise the id is remembered in
`this.productToDelete` and the confirmation modal is shown. -/
def confirmDeleteProduct (m : ProductManager) (productId : ℤ) :
    ProductManager × ConfirmView :=
  match m.products.find? (fun p => p.id == productId) with
  | none => (m, { modalShown := false, modalText := none, toasts := ["Product not found"] })
  | some product =>
    ({ m with productToDelete := some productId },
     { modalShown := true,
       modalText := some ("Are you sure you want to delete \"" ++ product.name ++ "\"?"),
       toasts := [] })

/-- `handleConfirmDelete()`: fires the delete only when `this.productToDelete`
is truthy — `null` and the number `0` are both falsy in JavaScript. Returns
the id passed to `deleteProductById`, or `none` when nothing happens. -/
def handleConfirmDelete (m : ProductManager) : ProductManager × Option ℤ :=
  match m.productToDelete with
  | some pid => if pid ≠ 0 then ({ m with productToDelete := none }, some pid) else (m, none)
  | none => (m, none)

/-- `showRowLoading(productId, show)` applied to the row's button-group cell:
only the `show === true` branch writes anything; with `show = false` the
function body does nothing and the cell keeps its current markup. -/
def showRowLoading (actionsCellHtml : String) (showIt : Bool) : String :=
  if showIt then spinnerHtml else actionsCellHtml

/-- Observable outcome of one `deleteProductById` run. -/
structure DeleteView where
  actionsCell : String
  toasts : List String
  refetched : Bool
deriving DecidableEq, Repr

/-- `deleteProductById(productId)`: shows the row spinner, issues DELETE;
on success toasts and re-fetches (which rebuilds the whole table); on
failure toasts the error and calls `showRowLoading(productId, false)`. -/
def deleteProductById (origCell : String) (success : Bool) (errMsg : String) :
    DeleteView :=
  if success then
    { actionsCell := showRowLoading origCell true,
      toasts := ["Product deleted successfully!"], refetched := true }
  else
    { actionsCell := showRowLoading (showRowLoading origCell true) false,
      toasts := [errMsg], refetched := false }

/-!
Catalog form validation and live input sanitizers
(`static/manage-products.js`).
-/

/-- One character of the name regex `/^[a-zA-Z0-9\s\-\_]+$/` in
`validateForm` and `validateNameInput` (note `\s`: any whitespace). -/
def jsNameChar (c : Char) : Bool :=
  c.isAlpha || c.isDigit || jsWhitespace c || c == '-' || c == '_'

/-- The modal form's raw field state: the name input's string, the unit
select's value (`""` when nothing is selected), and the results of
`parseFloat($("#price").val())` / `parseInt($("#stock").val())` (`none`
models `NaN`). -/
structure ProductForm where
  nameVal : String
  unitVal : String
  priceVal : Option ℚ
  stockVal : Option ℤ
deriving DecidableEq, Repr

/-- `validateForm()`: name trimmed, required, length at least 2, matching the
name regex; unit a non-empty selection; `!price || price <= 0` rejects `NaN`,
`0` and negatives; stock rejected when `NaN` or negative. -/
def validateForm (f : ProductForm) : Bool :=
  (if jsTrim f.nameVal = "" ∨ (jsTrim f.nameVal).length < 2 then false
   else (jsTrim f.nameVal).toList.all jsNameChar) &&
  (if f.unitVal = "" then false else true) &&
  (match f.priceVal with
   | none => false
   | some p => if p ≤ 0 then false else true) &&
  (match f.stockVal with
   | none => false
   | some n => if n < 0 then false else true)

/-- One character of the class `[A-Za-z0-9 _-]` — a literal space, not `\s`. -/
def specNameChar (c : Char) : Bool :=
  c.isAlpha || c.isDigit || c == ' ' || c == '-' || c == '_'

/-- Stated from the spec's words (for comparison with `validateForm`): same
rules, but with the name matching `[A-Za-z0-9 _-]+` exactly — no characters
other than letters, digits, the literal space, `_` and `-` are permitted. -/
def validateFormSpec (f : ProductForm) : Bool :=
  (if jsTrim f.nameVal = "" ∨ (jsTrim f.nameVal).length < 2 then false
   else (jsTrim f.nameVal).toList.all specNameChar) &&
  (if f.unitVal = "" then false else true) &&
  (match f.priceVal with
   | none => false
   | some p => if p ≤ 0 then false else true) &&
  (match f.stockVal with
   | none => false
   | some n => if n < 0 then false else true)

/-- `getFormData()`: trimmed name, selected unit, parsed price, parsed stock
with `|| 0` substituting `0` for `NaN`. -/
structure ProductPayload where
  name : String
  unit : String
  price : Option ℚ
  stock : ℤ
deriving DecidableEq, Repr

def getFormData (f : ProductForm) : ProductPayload :=
  { name := jsTrim f.nameVal, unit := f.unitVal,
    price := f.priceVal, stock := f.stockVal.getD 0 }

/-- Whether `handleSaveProduct()` reaches the network. -/
inductive SaveResult where
  | noCall : SaveResult
  | network : ProductPayload → SaveResult
deriving DecidableEq, Repr

/-- `handleSaveProduct()` up to the create/update branch: returns early with
no network call whenever `validateForm()` is false. -/
def handleSaveProduct (f : ProductForm) : SaveResult :=
  if validateForm f then .network (getFormData f) else .noCall

/-- The regex `/^\d*\.?\d{0,2}$/` of `validatePriceInput`. -/
def priceRegex (cs : List Char) : Bool :=
  match cs.dropWhile Char.isDigit with
  | [] => true
  | '.' :: fs => fs.all Char.isDigit && fs.length ≤ 2
  | _ => false

/-- `validatePriceInput(e)`: on a regex failure, `value.slice(0, -1)` — the
last character is removed, the rest is kept. -/
def validatePriceInput (value : String) : String :=
  if priceRegex value.toList then value else String.mk value.toList.dropLast

/-- `validateStockInput(e)`: on a `/^\d*$/` failure the value is rewritten to
`value.replace(/[^\d]/g, "")` — every non-digit character is removed. -/
def validateStockInput (value : String) : String :=
  if value.toList.all Char.isDigit then value
  else String.mk (value.toList.filter Char.isDigit)

/-- `validateNameInput(e)`: on a `/^[a-zA-Z0-9\s\-\_]*$/` failure,
`value.slice(0, -1)`. -/
def validateNameInput (value : String) : String :=
  if value.toList.all jsNameChar then value else String.mk value.toList.dropLast

/-!
Order submission and the remaining order-composer markup
(main dashboard script).
-/

/-- One entry of the submitted items list. -/
structure OrderItem where
  product_name : String
  quantity : ℤ
deriving DecidableEq, Repr

/-- The POST `/api/orders` body. -/
structure OrderSubmission where
  customer_name : String
  items : List OrderItem
deriving DecidableEq, Repr

/-- Whether `handleOrderSubmit` reaches the network. -/
inductive SubmitResult where
  | aborted : String → SubmitResult
  | posted : OrderSubmission → SubmitResult
deriving DecidableEq, Repr

/-- The row collection loop of `handleOrderSubmit()`: a row contributes an
item exactly when its select holds a product name (truthy: non-empty) and
its parsed quantity is `> 0` (false for `NaN`). -/
def collectOrderItems (rows : List OrderRow) : List OrderItem :=
  rows.filterMap (fun r =>
    match r.qtyVal with
    | some q => if r.selectVal ≠ "" ∧ q > 0 then some ⟨r.selectVal, q⟩ else none
    | none => none)

/-- `handleOrderSubmit(e)` up to the network call: empty trimmed customer
name aborts with a toast; no valid row aborts with a toast; otherwise the
collected items are POSTed. -/
def handleOrderSubmit (customerNameVal : String) (rows : List OrderRow) : SubmitResult :=
  if jsTrim customerNameVal = "" then .aborted "Please enter customer name"
  else if collectOrderItems rows = [] then
    .aborted "Please add at least one product to the order"
  else .posted { customer_name := jsTrim customerNameVal, items := collectOrderItems rows }

/-- One `<option>` of `generateProductOptions()`: the `value` attribute and
the `data-*` attributes interpolate the raw product fields; in the label the
name goes through `escapeHtml` but the unit is raw. -/
def optionHtml (product : Product) : String :=
  let stockInfo := if product.stock > 0 then "(Stock: " ++ toString product.stock ++ ")"
                   else "(Out of Stock)"
  let dis := if product.stock ≤ 0 then " disabled" else ""
  "<option value=\"" ++ product.name ++ "\" data-price=\"" ++ rupeeText product.price ++
    "\" data-stock=\"" ++ toString product.stock ++ "\" data-unit=\"" ++ product.unit ++
    "\"" ++ dis ++ ">" ++ escapeHtml product.name ++ " - " ++ formatCurrency product.price ++
    "/" ++ product.unit ++ " " ++ stockInfo ++ "</option>"

/-- `generateProductOptions()`: placeholder option plus one option per
product. -/
def generateProductOptions (products : List Product) : String :=
  "<option value=\"\">-- Select Product --</option>" ++
    String.join (products.map optionHtml)

/-- A recent order as rendered by `displayOrders` (server-owned, read-only).
`order_date` carries the already-formatted date text (the `toLocaleString`
reformatting is locale environment behaviour outside this model);
`items` is the server's free-text rendering, `null` modelled as `none`. -/
structure OrderRec where
  order_number : String
  order_date : String
  customer_name : String
  items : Option String
  total : ℤ
deriving DecidableEq, Repr

/-- One `<tr>` of the recent-orders table in `displayOrders`: customer name
and items text (defaulted to `"N/A"`) go through `escapeHtml`. -/
def orderRowHtml (order : OrderRec) : String :=
  "<tr><td>" ++ order.order_date ++ "</td><td><strong>" ++ order.order_number ++
    "</strong></td><td>" ++ escapeHtml order.customer_name ++ "</td><td><small>" ++
    escapeHtml (order.items.getD "N/A") ++ "</small></td><td><strong>" ++
    formatCurrency order.total ++ "</strong></td></tr>"

/-- `displayOrders(orders)`. -/
def displayOrders (orders : List OrderRec) : String :=
  if orders.isEmpty then
    "<tr><td colspan=\"5\" class=\"text-center text-muted\">" ++
      "<i class=\"fas fa-inbox\"></i> No orders found</td></tr>"
  else String.join (orders.map orderRowHtml)

/-!
Claim theorems. The concrete sample values below are shared by several
theorems' evaluations.
-/

/-- A concrete catalog product used for concrete evaluations. -/
def sampleRice (pid : ℤ) : Product :=
  { id := pid, name := "Rice", unit := "kg", price := 5000, stock := 5 }

/-- A composer state with one (empty) row but an empty product list — the
state at page load before the product fetch resolves, or after the catalog
was emptied. -/
def emptyCatalogComposer : GroceryStore :=
  { allProducts := [], rows := [freshRow], orderTotal := 0, toasts := [] }

/-- A catalog manager holding one previously fetched product. -/
def riceCatalog (pid : ℤ) : ProductManager :=
  { products := [sampleRice pid], productToDelete := none }

/-- C1: the claim states that after `removeProductRow` the row list is never
empty, with one fresh row appended when the last row is removed, including
when `allProducts` is empty at removal time. The code contradicts this (and
its own comment "Ensure at least one product row exists"): `addProductRow`
returns early with only a toast when `allProducts` is empty, so removing the
last row then leaves zero rows. -/
theorem c1_remove_last_row_with_no_products_leaves_zero_rows :
    (removeProductRow emptyCatalogComposer 0).rows = [] ∧
    (removeProductRow emptyCatalogComposer 0).toasts =
      ["No products available. Please add products first."] := by
  constructor <;> rfl

/-- C2: after any sequence of add/remove/select/quantity row events from the
freshly initialised composer, the stored `orderTotal` is exactly what
`updateOrderTotal` recomputes from the currently rendered subtotal texts,
that recomputation equals the sum over all current rows of
`unit_price * quantity` (`0` substituted for an absent selection or an
unparsable quantity), and every row's displayed subtotal text is the
`formatCurrency` rendering of its own `unit_price * quantity`. -/
theorem c2_order_total_is_recomputed_sum (ps : List Product) (ops : List ComposerOp) :
    (applyOps (initialState ps) ops).orderTotal =
        updateOrderTotal (applyOps (initialState ps) ops).rows ∧
      updateOrderTotal (applyOps (initialState ps) ops).rows =
        ((applyOps (initialState ps) ops).rows.map rowSubtotal).sum ∧
      ∀ r ∈ (applyOps (initialState ps) ops).rows,
        r.subtotalText = formatCurrency (rowSubtotal r) := by
  have h := applyOps_consistent (initialState_consistent ps) ops
  exact ⟨h.2, updateOrderTotal_eq_sum h.1, h.1⟩

/-- C6: the claim states that a failed `fetchProducts` renders the
empty-state table regardless of any previously held product list. The code
passes `[]` to `displayProducts`, but `displayProducts` declares no
parameter and renders `this.products`, so after a failure the previously
fetched list is re-rendered; only the toast and the always-cleared loading
indicator match the claim. Evaluated at the failing input: one previously
held product, then a failed fetch. -/
theorem c6_fetch_failure_renders_previous_list :
    (fetchProducts (riceCatalog 1) none).2.tableHtml = productRowHtml (sampleRice 1) ∧
    (fetchProducts (riceCatalog 1) none).2.tableHtml ≠ emptyStateHtml ∧
    (fetchProducts (riceCatalog 1) none).2.toasts = ["Failed to load products"] ∧
    (fetchProducts (riceCatalog 1) none).2.loadingCleared = true := by
  refine ⟨by decide, by decide, rfl, rfl⟩

/-- C7: the two-step confirm holds (the dialog opens for a product present in
the list and DELETE fires only from `handleConfirmDelete`), but the claim's
"row is restored to its normal (non-loading) state on failure" is false in
the code: `showRowLoading(productId, false)` has an empty else-path, so after
a failed DELETE the row's button group still holds the spinner markup, which
differs from the normal button markup. -/
theorem c7_failed_delete_keeps_spinner :
    (confirmDeleteProduct (riceCatalog 7) 7).2.modalShown = true ∧
    (confirmDeleteProduct (riceCatalog 7) 7).1.productToDelete = some 7 ∧
    (handleConfirmDelete (confirmDeleteProduct (riceCatalog 7) 7).1).2 = some 7 ∧
    (deleteProductById (actionButtonsHtml 7) false "Failed to delete product").toasts =
      ["Failed to delete product"] ∧
    (deleteProductById (actionButtonsHtml 7) false "Failed to delete product").actionsCell =
      spinnerHtml ∧
    spinnerHtml ≠ actionButtonsHtml 7 := by
  refine ⟨rfl, rfl, by decide, rfl, rfl, by decide⟩

/-- C10: a product with id `0` is found, the confirmation dialog opens and
the id is stored, but `handleConfirmDelete` guards on JavaScript truthiness
of `this.productToDelete`, and the number `0` is falsy — so confirming
issues no DELETE (and does not even clear the stored id). -/
theorem c10_id_zero_cannot_be_deleted :
    (confirmDeleteProduct (riceCatalog 0) 0).2.modalShown = true ∧
    (confirmDeleteProduct (riceCatalog 0) 0).1.productToDelete = some 0 ∧
    (handleConfirmDelete (confirmDeleteProduct (riceCatalog 0) 0).1).2 = none ∧
    (handleConfirmDelete (confirmDeleteProduct (riceCatalog 0) 0).1).1.productToDelete =
      some 0 := by
  refine ⟨rfl, rfl, by decide, by decide⟩

/-- Products used by the C3 counterexample: stocks 5 and 3. -/
def productA : Product := { id := 1, name := "A", unit := "kg", price := 100, stock := 5 }

def productB : Product := { id := 2, name := "B", unit := "kg", price := 200, stock := 3 }

/-- An out-of-stock product. -/
def productC : Product := { id := 3, name := "C", unit := "kg", price := 100, stock := 0 }

/-- C3 counterexample: the claim's "the quantity input is always ≤ the
selected product's stock" fails. Select product A (stock 5), enter quantity
5 (within bounds, no clamping), then switch the row to product B (stock 3):
`handleProductChange` re-derives `max = 3` but does not re-clamp the
existing quantity, leaving quantity 5 > stock 3 in the input. -/
theorem c3_counterexample_quantity_exceeds_stock_after_switch :
    ((applyOps (initialState [productA, productB])
        [ComposerOp.selectProduct 0 (some productA), ComposerOp.inputQuantity 0 (some 5),
          ComposerOp.selectProduct 0 (some productB)]).rows.map
      (fun r => (r.selectVal, r.qtyVal, r.maxAttr))) = [("B", some 5, some 3)] ∧
    productB.stock = 3 ∧ ¬ (5 : ℤ) ≤ 3 := by
  refine ⟨by decide, rfl, by decide⟩

/-- C3 (amended): `handleQuantityChange` clamps every entered quantity to the
row's current `max` bound — the result is `min entered bound`, with a toast
naming the permitted maximum exactly when clamping happened, never an
outright rejection — and `handleProductChange` on a zero-stock product
clears and disables the quantity input and notifies. (The bound is re-derived
on a product switch without re-clamping, so the quantity can exceed the
newly selected product's stock until the next quantity input event.) -/
theorem c3_quantity_clamped_to_bound_and_out_of_stock_disables
    (r : OrderRow) (q m : ℤ) (p : Product) :
    (r.maxAttr = some m →
      (handleQuantityChangeRow r (some q)).1.qtyVal = some (min q m) ∧
      (m < q → (handleQuantityChangeRow r (some q)).2 =
        some ("Maximum available quantity is " ++ toString m)) ∧
      (q ≤ m → (handleQuantityChangeRow r (some q)).2 = none)) ∧
    (p.stock = 0 →
      (handleProductChangeRow r (some p)).1.qtyVal = none ∧
      (handleProductChangeRow r (some p)).1.qtyDisabled = true ∧
      (handleProductChangeRow r (some p)).2 = some "Selected product is out of stock") := by
  constructor
  · intro hmax
    unfold handleQuantityChangeRow
    rw [hmax]
    by_cases hq : q > m
    · have hmin : min q m = m := by omega
      simp only [if_pos hq, hmin]
      exact ⟨by trivial, fun _ => by trivial, fun hle => absurd hq (not_lt.mpr hle)⟩
    · have hmin : min q m = q := by omega
      simp only [if_neg hq, hmin]
      exact ⟨by trivial, fun hlt => absurd hlt hq, fun _ => by trivial⟩
  · intro hstock
    unfold handleProductChangeRow
    simp only [if_pos hstock]
    exact ⟨by trivial, by trivial, by trivial⟩

/-- Witness for the amended C3 theorem at concrete inputs: bound 4 with
entered quantity 9 is clamped to `min 9 4 = 4` with the toast, and selecting
the out-of-stock product clears and disables the input. -/
theorem c3_quantity_clamped_witness :
    (handleQuantityChangeRow { freshRow with maxAttr := some 4 } (some 9)).1.qtyVal =
      some (min 9 4) ∧
    (handleQuantityChangeRow { freshRow with maxAttr := some 4 } (some 9)).2 =
      some ("Maximum available quantity is " ++ toString (4 : ℤ)) ∧
    (handleProductChangeRow freshRow (some productC)).1.qtyVal = none ∧
    (handleProductChangeRow freshRow (some productC)).1.qtyDisabled = true ∧
    (handleProductChangeRow freshRow (some productC)).2 =
      some "Selected product is out of stock" := by
  have h := c3_quantity_clamped_to_bound_and_out_of_stock_disables
    { freshRow with maxAttr := some 4 } 9 4 productC
  have h2 := (h.2 (by decide))
  exact ⟨(h.1 rfl).1, (h.1 rfl).2.1 (by decide), h2.1, h2.2.1, h2.2.2⟩

/-- C4: `handleOrderSubmit` aborts with a toast and no network call when the
trimmed customer name is empty, or when no row has both a selected product
and a parsed quantity `> 0`; otherwise it POSTs exactly the collected rows
(`collectOrderItems`, the rows with a non-empty select value and quantity
`> 0`) under the trimmed customer name. -/
theorem c4_submit_requires_name_and_items (customerNameVal : String) (rows : List OrderRow) :
    (jsTrim customerNameVal = "" →
      handleOrderSubmit customerNameVal rows = .aborted "Please enter customer name") ∧
    (jsTrim customerNameVal ≠ "" → collectOrderItems rows = [] →
      handleOrderSubmit customerNameVal rows =
        .aborted "Please add at least one product to the order") ∧
    (jsTrim customerNameVal ≠ "" → collectOrderItems rows ≠ [] →
      handleOrderSubmit customerNameVal rows =
        .posted { customer_name := jsTrim customerNameVal,
                  items := collectOrderItems rows }) := by
  unfold handleOrderSubmit
  refine ⟨fun h => by rw [if_pos h], fun hh hi => ?_, fun hh hi => ?_⟩
  · rw [if_neg hh, if_pos hi]
  · rw [if_neg hh, if_neg hi]

/-- A row with product "Rice" selected and quantity 3. -/
def riceOrderRow : OrderRow :=
  { freshRow with selectVal := "Rice", qtyVal := some 3 }

/-- Witness for C4 at concrete inputs: whitespace-only name aborts, a name
with no valid rows aborts, and a valid name with one valid row POSTs exactly
that row. -/
theorem c4_submit_requires_name_and_items_witness :
    handleOrderSubmit "   " [] = .aborted "Please enter customer name" ∧
    handleOrderSubmit "Asha" [] = .aborted "Please add at least one product to the order" ∧
    handleOrderSubmit "Asha" [riceOrderRow] =
      .posted { customer_name := "Asha",
                items := [{ product_name := "Rice", quantity := 3 }] } := by
  refine ⟨(c4_submit_requires_name_and_items "   " []).1 (by decide),
    (c4_submit_requires_name_and_items "Asha" []).2.1 (by decide) rfl, ?_⟩
  have h := (c4_submit_requires_name_and_items "Asha" [riceOrderRow]).2.2
    (by decide) (by decide)
  rw [h]
  decide

/-- A form whose name contains a tab between two letters, with all other
fields valid. -/
def tabNameForm : ProductForm :=
  { nameVal := "a\tb", unitVal := "kg", priceVal := some 1, stockVal := some 0 }

/-- C5 counterexample: the claim says any character outside `[A-Za-z0-9 _-]`
makes `validateForm` return false, but the code's regex uses `\s`, which
matches every whitespace character — a name containing a tab (outside the
claimed class) is accepted by the code and rejected by the claim's rule. -/
theorem c5_counterexample_tab_in_name :
    validateForm tabNameForm = true ∧ validateFormSpec tabNameForm = false := by
  constructor <;> decide

/-- C5 (amended): `validateForm` returns true exactly when the trimmed name
is non-empty, at least 2 characters long, and each character is a letter, a
digit, `-`, `_`, or whitespace (`\s`, not just the literal space); the unit
is a non-empty selection; the price parsed to a number `> 0`; and the stock
parsed to an integer `≥ 0`. On a false result `handleSaveProduct` makes no
network call. -/
theorem c5_validate_form_exact (f : ProductForm) :
    (validateForm f = true ↔
      ((jsTrim f.nameVal ≠ "" ∧ 2 ≤ (jsTrim f.nameVal).length ∧
          ∀ c ∈ (jsTrim f.nameVal).toList, jsNameChar c = true) ∧
        f.unitVal ≠ "" ∧
        (∃ p, f.priceVal = some p ∧ 0 < p) ∧
        (∃ k, f.stockVal = some k ∧ 0 ≤ k))) ∧
    (validateForm f = false → handleSaveProduct f = .noCall) := by
  constructor
  · unfold validateForm
    simp only [Bool.and_eq_true]
    constructor
    · rintro ⟨⟨⟨hname, hunit⟩, hprice⟩, hstock⟩
      refine ⟨?_, ?_, ?_, ?_⟩
      · split at hname
        · cases hname
        · rename_i hcond
          push_neg at hcond
          exact ⟨hcond.1, by omega, fun c hc => List.all_eq_true.mp hname c hc⟩
      · split at hunit
        · cases hunit
        · rename_i hcond
          exact hcond
      · rcases hp : f.priceVal with _ | p
        · rw [hp] at hprice
          cases hprice
        · rw [hp] at hprice
          split at hprice
          · cases hprice
          · rename_i p' hpe
            injection hpe with hpe
            subst hpe
            split at hprice
            · cases hprice
            · rename_i hle
              exact ⟨p, rfl, not_le.mp hle⟩
      · rcases hs : f.stockVal with _ | k
        · rw [hs] at hstock
          cases hstock
        · rw [hs] at hstock
          split at hstock
          · cases hstock
          · rename_i k' hke
            injection hke with hke
            subst hke
            split at hstock
            · cases hstock
            · rename_i hlt
              exact ⟨k, rfl, not_lt.mp hlt⟩
    · rintro ⟨⟨hne, hlen, hchars⟩, hunit, ⟨p, hp, hp0⟩, ⟨k, hk, hk0⟩⟩
      rw [hp, hk]
      simp only [Bool.and_eq_true]
      refine ⟨⟨⟨?_, ?_⟩, ?_⟩, ?_⟩
      · rw [if_neg (by push_neg; exact ⟨hne, by omega⟩)]
        exact List.all_eq_true.mpr hchars
      · rw [if_neg hunit]
      · rw [if_neg (not_le.mpr hp0)]
      · rw [if_neg (not_lt.mpr hk0)]
  · intro h
    unfold handleSaveProduct
    rw [h]
    simp

/-- The claim's boundary values: name of length exactly 2, price `0.01`,
stock `0`. -/
def boundaryForm : ProductForm :=
  { nameVal := "ab", unitVal := "kg", priceVal := some (1 / 100), stockVal := some 0 }

/-- An invalid form: empty unit, unparsable price and stock. -/
def badForm : ProductForm :=
  { nameVal := "x", unitVal := "", priceVal := none, stockVal := none }

/-- Witness for C5 at concrete inputs: the boundary values are accepted, and
an invalid form leads to no network call. -/
theorem c5_validate_form_exact_witness :
    validateForm boundaryForm = true ∧ handleSaveProduct badForm = .noCall := by
  constructor
  · exact (c5_validate_form_exact boundaryForm).1.mpr
      ⟨⟨by decide, by decide, by decide⟩, by decide,
        ⟨1 / 100, rfl, by norm_num⟩, ⟨0, rfl, by norm_num⟩⟩
  · exact (c5_validate_form_exact badForm).2 (by decide)

/-- A product whose name and unit contain markup. -/
def evilProduct : Product :=
  { id := 1, name := "A<B", unit := "<u>x</u>", price := 5000, stock := 5 }

/-- An order whose customer name and items text contain markup. -/
def evilOrder : OrderRec :=
  { order_number := "ORD-1", order_date := "01/01/2026, 10:00",
    customer_name := "<X>", items := some "<Y> x 1", total := 100 }

/-- C8 counterexample: the claim says units and the option value attribute
are HTML-escaped before interpolation. They are not: a unit containing
markup lands raw in the catalog cell (the escaped form is absent), and the
option's `value` attribute carries the raw product name. -/
theorem c8_counterexample_unit_and_value_attr_raw :
    strContains (productRowHtml evilProduct) "<u>x</u>" = true ∧
    strContains (productRowHtml evilProduct) (escapeHtml "<u>x</u>") = false ∧
    escapeHtml "<u>x</u>" = "&lt;u&gt;x&lt;/u&gt;" ∧
    strContains (optionHtml evilProduct) "value=\"A<B\"" = true ∧
    strContains (optionHtml evilProduct) "value=\"A&lt;B\"" = false := by
  refine ⟨by decide, by decide, by decide, by decide, by decide⟩

/-- C8 (amended): the product name in the catalog table, the customer name
and items text in the orders table, and the product name in the option label
are escaped before interpolation; the unit (catalog cell and option label)
and the option `value`/`data-*` attributes are interpolated raw. Each site is
exhibited as a factorization of the generated markup, together with concrete
evaluations on markup-bearing field values. -/
theorem c8_escaped_and_raw_sites (p : Product) (o : OrderRec) :
    (∃ pre post, productRowHtml p = pre ++ escapeHtml p.name ++ post) ∧
    (∃ pre post, productRowHtml p = pre ++ p.unit ++ post) ∧
    (∃ pre post, orderRowHtml o = pre ++ escapeHtml o.customer_name ++ post) ∧
    (∃ pre post, orderRowHtml o = pre ++ escapeHtml (o.items.getD "N/A") ++ post) ∧
    (∃ post, optionHtml p = "<option value=\"" ++ p.name ++ post) ∧
    (∃ pre post, optionHtml p = pre ++ escapeHtml p.name ++ post) ∧
    strContains (productRowHtml evilProduct) "A&lt;B" = true ∧
    strContains (productRowHtml evilProduct) "A<B" = false ∧
    strContains (orderRowHtml evilOrder) "&lt;X&gt;" = true ∧
    strContains (orderRowHtml evilOrder) "<X>" = false ∧
    strContains (orderRowHtml evilOrder) "&lt;Y&gt; x 1" = true ∧
    strContains (optionHtml evilProduct) "data-unit=\"<u>x</u>\"" = true := by
  refine ⟨?_, ?_, ?_, ?_, ?_, ?_, by decide, by decide, by decide, by decide, by decide,
    by decide⟩
  · refine ⟨"<tr data-product-id=\"" ++ toString p.id ++ "\"><td><strong>",
      "</strong></td><td><span class=\"label label-default\">" ++ p.unit ++
        "</span></td><td><strong>" ++ formatCurrency p.price ++
        "</strong></td><td class=\"" ++
        (if p.stock ≤ 10 then "text-danger"
         else if p.stock ≤ 20 then "text-warning" else "text-success") ++
        "\"><i class=\"" ++
        (if p.stock ≤ 10 then "fas fa-exclamation-triangle"
         else if p.stock ≤ 20 then "fas fa-exclamation-circle"
         else "fas fa-check-circle") ++
        "\"></i> " ++ toString p.stock ++
        " units</td><td><div class=\"btn-group\" role=\"group\">" ++
        actionButtonsHtml p.id ++ "</div></td></tr>", ?_⟩
    simp only [productRowHtml]
    simp only [String.append_assoc]
  · refine ⟨"<tr data-product-id=\"" ++ toString p.id ++ "\"><td><strong>" ++
        escapeHtml p.name ++ "</strong></td><td><span class=\"label label-default\">",
      "</span></td><td><strong>" ++ formatCurrency p.price ++
        "</strong></td><td class=\"" ++
        (if p.stock ≤ 10 then "text-danger"
         else if p.stock ≤ 20 then "text-warning" else "text-success") ++
        "\"><i class=\"" ++
        (if p.stock ≤ 10 then "fas fa-exclamation-triangle"
         else if p.stock ≤ 20 then "fas fa-exclamation-circle"
         else "fas fa-check-circle") ++
        "\"></i> " ++ toString p.stock ++
        " units</td><td><div class=\"btn-group\" role=\"group\">" ++
        actionButtonsHtml p.id ++ "</div></td></tr>", ?_⟩
    simp only [productRowHtml]
    simp only [String.append_assoc]
  · refine ⟨"<tr><td>" ++ o.order_date ++ "</td><td><strong>" ++ o.order_number ++
        "</strong></td><td>",
      "</td><td><small>" ++ escapeHtml (o.items.getD "N/A") ++
        "</small></td><td><strong>" ++ formatCurrency o.total ++ "</strong></td></tr>", ?_⟩
    simp only [orderRowHtml]
    simp only [String.append_assoc]
  · refine ⟨"<tr><td>" ++ o.order_date ++ "</td><td><strong>" ++ o.order_number ++
        "</strong></td><td>" ++ escapeHtml o.customer_name ++ "</td><td><small>",
      "</small></td><td><strong>" ++ formatCurrency o.total ++ "</strong></td></tr>", ?_⟩
    simp only [orderRowHtml]
    simp only [String.append_assoc]
  · refine ⟨"\" data-price=\"" ++ rupeeText p.price ++ "\" data-stock=\"" ++
        toString p.stock ++ "\" data-unit=\"" ++ p.unit ++ "\"" ++
        (if p.stock ≤ 0 then " disabled" else "") ++ ">" ++ escapeHtml p.name ++
        " - " ++ formatCurrency p.price ++ "/" ++ p.unit ++ " " ++
        (if p.stock > 0 then "(Stock: " ++ toString p.stock ++ ")"
         else "(Out of Stock)") ++ "</option>", ?_⟩
    simp only [optionHtml]
    simp only [String.append_assoc]
  · refine ⟨"<option value=\"" ++ p.name ++ "\" data-price=\"" ++ rupeeText p.price ++
        "\" data-stock=\"" ++ toString p.stock ++ "\" data-unit=\"" ++ p.unit ++ "\"" ++
        (if p.stock ≤ 0 then " disabled" else "") ++ ">",
      " - " ++ formatCurrency p.price ++ "/" ++ p.unit ++ " " ++
        (if p.stock > 0 then "(Stock: " ++ toString p.stock ++ ")"
         else "(Out of Stock)") ++ "</option>", ?_⟩
    simp only [optionHtml]
    simp only [String.append_assoc]

/-- C9 counterexample: on the stock field the claim says exactly the last
character is stripped, but the code rewrites the value with
`replace(/[^\d]/g, "")`: on `"1a2"` it produces `"12"`, not the claim's
`"1a"`. -/
theorem c9_counterexample_stock_strips_all_non_digits :
    validateStockInput "1a2" = "12" ∧
    String.mk ("1a2".toList.dropLast) = "1a" ∧
    ("12" : String) ≠ "1a" := by
  refine ⟨by decide, by decide, by decide⟩

/-- C9 (amended): on a failing keystroke the name and price sanitizers strip
exactly the last character and leave the rest unchanged; the stock sanitizer
instead removes every non-digit character of the value (leaving a string of
digits). Passing values are left untouched by all three. -/
theorem c9_sanitizers_exact (value : String) :
    (priceRegex value.toList = false →
      validatePriceInput value = String.mk value.toList.dropLast) ∧
    (priceRegex value.toList = true → validatePriceInput value = value) ∧
    (value.toList.all jsNameChar = false →
      validateNameInput value = String.mk value.toList.dropLast) ∧
    (value.toList.all jsNameChar = true → validateNameInput value = value) ∧
    (value.toList.all Char.isDigit = false →
      validateStockInput value = String.mk (value.toList.filter Char.isDigit)) ∧
    (value.toList.all Char.isDigit = true → validateStockInput value = value) ∧
    (validateStockInput value).toList.all Char.isDigit = true := by
  refine ⟨fun h => ?_, fun h => ?_, fun h => ?_, fun h => ?_, fun h => ?_, fun h => ?_, ?_⟩
  · unfold validatePriceInput
    rw [h]
    rfl
  · unfold validatePriceInput
    rw [h]
    rfl
  · unfold validateNameInput
    rw [h]
    rfl
  · unfold validateNameInput
    rw [h]
    rfl
  · unfold validateStockInput
    rw [h]
    rfl
  · unfold validateStockInput
    rw [h]
    rfl
  · unfold validateStockInput
    split
    · rename_i hall
      exact hall
    · simp only [String.toList, String.mk]
      rw [List.all_eq_true]
      intro c hc
      exact (List.mem_filter.mp hc).2

/-- Witness for C9 at concrete inputs: `"12.345"` fails the price regex and
loses its final character; `"ab!"` fails the name regex and loses its final
character; `"1a2"` on the stock field is rewritten to its digits. -/
theorem c9_sanitizers_exact_witness :
    validatePriceInput "12.345" = "12.34" ∧
    validateNameInput "ab!" = "ab" ∧
    validateStockInput "1a2" = "12" ∧
    (validateStockInput "1a2").toList.all Char.isDigit = true := by
  refine ⟨?_, ?_, ?_, (c9_sanitizers_exact "1a2").2.2.2.2.2.2⟩
  · rw [(c9_sanitizers_exact "12.345").1 (by decide)]
    decide
  · rw [(c9_sanitizers_exact "ab!").2.2.1 (by decide)]
    decide
  · rw [(c9_sanitizers_exact "1a2").2.2.2.2.1 (by decide)]
    decide
